import Mathlib

/-
Verification of the Anvil world adapter (mceditlib/anvil/adapter.py).

The development shallowly embeds the nibble codec, the section codec,
the chunk section store, the session lock and the adapter-level control
flow as executable Lean definitions, and proves the spec's testable
properties about them.  Machine integers are modelled as Nat with
explicit `% 2^w` where the numpy dtype wraps; byte-array grids are
nested lists whose innermost axis is the contiguous numpy axis.
-/

set_option maxRecDepth 4000

/-- A three-axis grid of unsigned cells, innermost list = last numpy axis. -/
abbrev Grid3 := List (List (List Nat))

/-- Apply a row transformation along the last axis of a grid. -/
def mapRows (f : List Nat → List Nat) (g : Grid3) : Grid3 :=
  g.map (fun r => r.map f)

/-- Elementwise map over a grid (a numpy ufunc / astype). -/
def gridMap (f : Nat → Nat) (g : Grid3) : Grid3 :=
  g.map (fun r => r.map (fun q => q.map f))

/-- Elementwise combination of two grids (numpy broadcasting of `|=`). -/
def gridZip (f : Nat → Nat → Nat) (g1 g2 : Grid3) : Grid3 :=
  List.zipWith (List.zipWith (List.zipWith f)) g1 g2

/-- Every cell of the grid satisfies `p`. -/
def gridForall (p : Nat → Prop) (g : Grid3) : Prop :=
  ∀ r ∈ g, ∀ q ∈ r, ∀ v ∈ q, p v

/-- The grid has shape `a` x `b` x `c`. -/
def shape3 (a b c : Nat) (g : Grid3) : Prop :=
  g.length = a ∧ ∀ r ∈ g, r.length = b ∧ ∀ q ∈ r, q.length = c

/-- numpy `arr.any()` style test: some cell satisfies `p`. -/
def gridAny (p : Nat → Bool) (g : Grid3) : Bool :=
  g.any (fun r => r.any (fun q => q.any p))

/-- numpy `(arr == k).all()` style test: every cell satisfies `p`. -/
def gridAllB (p : Nat → Bool) (g : Grid3) : Bool :=
  g.all (fun r => r.all (fun q => q.all p))

instance (p : Nat → Prop) [DecidablePred p] (g : Grid3) : Decidable (gridForall p g) := by
  unfold gridForall; infer_instance

instance (a b c : Nat) (g : Grid3) : Decidable (shape3 a b c g) := by
  unfold shape3; infer_instance

/-- One contiguous last-axis row of `unpackNibbleArray`: packed byte `b`
contributes `b & 0xf` at the even logical index and `b >> 4` at the odd
one (`adapter.py` lines 54-62; the array dtype is uint8, so `b < 256`). -/
def unpackRow : List Nat → List Nat
  | [] => []
  | b :: bs => b % 16 :: b / 16 :: unpackRow bs

/-- One contiguous last-axis row of `packNibbleArray` on a uint8 array:
consecutive cells `(lo, hi)` combine as `(hi << 4) | lo`, the shift
wrapping at the uint8 dtype (`adapter.py` lines 65-69). -/
def packRow : List Nat → List Nat
  | lo :: hi :: rest => ((hi * 16 % 256) ||| lo) :: packRow rest
  | _ => []

/-- `packNibbleArray` applied to a uint16 array (the `Add` path of
`AnvilSection.buildNBTTag`, where the input is `Blocks >> 8`): the
in-place shift wraps at the uint16 dtype instead. -/
def packRow16 : List Nat → List Nat
  | lo :: hi :: rest => ((hi * 16 % 65536) ||| lo) :: packRow16 rest
  | _ => []

/-- `unpackNibbleArray(dataArray)` from adapter.py: same-rank grid with
the last axis doubled, low nibble at even indices, high at odd. -/
def unpackNibbleArray (g : Grid3) : Grid3 := mapRows unpackRow g

/-- `packNibbleArray(unpackedData)` from adapter.py on a uint8 array:
the last axis is grouped in consecutive pairs combined into one byte. -/
def packNibbleArray (g : Grid3) : Grid3 := mapRows packRow g

-- Arithmetic facts about nibble packing, checked by evaluation.

theorem lor_sixteen : ∀ hi < 16, ∀ lo < 16, (hi * 16 % 256) ||| lo = 16 * hi + lo := by
  decide

theorem lor_byte_split : ∀ b < 256, (b / 16 * 16 % 256) ||| (b % 16) = b := by
  intro b hb
  rw [lor_sixteen (b / 16) (by omega) (b % 16) (by omega)]
  omega

theorem lor_highbyte : ∀ b < 256, ∀ a < 16, b ||| a * 256 = a * 256 + b := by
  decide

theorem packRow_lt : ∀ l : List Nat, (∀ v ∈ l, v < 16) → ∀ x ∈ packRow l, x < 256
  | [], _, x, hx => by simp [packRow] at hx
  | [_], _, x, hx => by simp [packRow] at hx
  | lo :: hi :: rest, h, x, hx => by
    simp only [packRow, List.mem_cons] at hx
    rcases hx with hx | hx
    · have hlo : lo < 16 := h lo (by simp)
      have hhi : hi < 16 := h hi (by simp)
      rw [hx, lor_sixteen hi hhi lo hlo]; omega
    · exact packRow_lt rest (fun v hv => h v (by simp [hv])) x hx

theorem packRow16_eq_packRow : ∀ l : List Nat, (∀ v ∈ l, v < 16) → packRow16 l = packRow l
  | [], _ => rfl
  | [_], _ => rfl
  | lo :: hi :: rest, h => by
    have hhi : hi < 16 := h hi (by simp)
    simp only [packRow16, packRow]
    have h1 : hi * 16 % 65536 = hi * 16 % 256 := by omega
    rw [h1, packRow16_eq_packRow rest (fun v hv => h v (by simp [hv]))]

theorem packRow_unpackRow : ∀ l : List Nat, (∀ v ∈ l, v < 256) → packRow (unpackRow l) = l
  | [], _ => rfl
  | b :: bs, h => by
    have hb : b < 256 := h b (by simp)
    simp only [unpackRow, packRow]
    rw [lor_byte_split b hb, packRow_unpackRow bs (fun v hv => h v (by simp [hv]))]

theorem unpackRow_packRow : ∀ l : List Nat, (∀ v ∈ l, v < 16) → l.length % 2 = 0 →
    unpackRow (packRow l) = l
  | [], _, _ => rfl
  | [_], _, he => by simp at he
  | lo :: hi :: rest, h, he => by
    have hlo : lo < 16 := h lo (by simp)
    have hhi : hi < 16 := h hi (by simp)
    simp only [packRow, unpackRow]
    rw [lor_sixteen hi hhi lo hlo]
    have h1 : (16 * hi + lo) % 16 = lo := by omega
    have h2 : (16 * hi + lo) / 16 = hi := by omega
    rw [h1, h2,
      unpackRow_packRow rest (fun v hv => h v (by simp [hv])) (by simp at he ⊢; omega)]

theorem list_map_self {α : Type} (f : α → α) :
    ∀ l : List α, (∀ x ∈ l, f x = x) → l.map f = l
  | [], _ => rfl
  | x :: xs, h => by
    simp only [List.map_cons]
    rw [h x (by simp), list_map_self f xs (fun y hy => h y (by simp [hy]))]

theorem mapRows_self (f : List Nat → List Nat) (g : Grid3)
    (h : ∀ r ∈ g, ∀ q ∈ r, f q = q) : mapRows f g = g := by
  unfold mapRows
  refine list_map_self _ g (fun r hr => ?_)
  exact list_map_self f r (fun q hq => h r hr q hq)

theorem mapRows_mapRows (f1 f2 : List Nat → List Nat) (g : Grid3) :
    mapRows f1 (mapRows f2 g) = mapRows (fun q => f1 (f2 q)) g := by
  simp [mapRows, List.map_map, Function.comp]

/-- Helper: unpack-then-pack is the identity on valid packed grids. -/
theorem pack_unpack_grid (g : Grid3) (hv : gridForall (· < 256) g) :
    packNibbleArray (unpackNibbleArray g) = g := by
  unfold packNibbleArray unpackNibbleArray
  rw [mapRows_mapRows]
  exact mapRows_self _ g (fun r hr q hq =>
    packRow_unpackRow q (fun v hv2 => hv r hr q hq v hv2))

/-- Helper: pack-then-unpack is the identity on valid unpacked grids. -/
theorem unpack_pack_grid (g : Grid3) (hsh : ∀ r ∈ g, ∀ q ∈ r, q.length % 2 = 0)
    (hv : gridForall (· < 16) g) :
    unpackNibbleArray (packNibbleArray g) = g := by
  unfold packNibbleArray unpackNibbleArray
  rw [mapRows_mapRows]
  exact mapRows_self _ g (fun r hr q hq =>
    unpackRow_packRow q (fun v hv2 => hv r hr q hq v hv2) (hsh r hr q hq))

/-- C1: for every packed 16x16x8 byte grid `g` and every unpacked
16x16x16 grid `u` with values 0-15, the nibble codec operations are
exact inverses: `pack (unpack g) = g` and `unpack (pack u) = u`. -/
theorem claim_C1_nibble_codec_inverses (g u : Grid3)
    (hg1 : shape3 16 16 8 g) (hg2 : gridForall (· < 256) g)
    (hu1 : shape3 16 16 16 u) (hu2 : gridForall (· < 16) u) :
    packNibbleArray (unpackNibbleArray g) = g ∧
    unpackNibbleArray (packNibbleArray u) = u := by
  refine ⟨pack_unpack_grid g hg2, unpack_pack_grid u ?_ hu2⟩
  intro r hr q hq
  have := (hu1.2 r hr).2 q hq
  omega

/-- A constant value grid, used as concrete test data. -/
def constGrid3 (a b c v : Nat) : Grid3 :=
  List.replicate a (List.replicate b (List.replicate c v))

/-- Witness for C1 at a concrete packed and a concrete unpacked grid. -/
theorem claim_C1_witness :
    packNibbleArray (unpackNibbleArray (constGrid3 16 16 8 171)) = constGrid3 16 16 8 171 ∧
    unpackNibbleArray (packNibbleArray (constGrid3 16 16 16 9)) = constGrid3 16 16 16 9 :=
  claim_C1_nibble_codec_inverses (constGrid3 16 16 8 171) (constGrid3 16 16 16 9)
    (by decide) (by decide) (by decide) (by decide)

/-- Internal representation of a 16x16x16 chunk section (class
`AnvilSection`): 4-bit arrays are held unpacked, and the full 12-bit
block ID lives in the uint16 `Blocks` array.  The section also retains
the mutable compound `old_section_tag` that `buildNBTTag` writes into
and returns (lines 142, 152, 158); of its entries only the `Add` key
matters here, because `buildNBTTag` overwrites Y, Blocks, Data,
BlockLight and SkyLight unconditionally on every save but writes `Add`
only conditionally and never deletes it, while the remaining leftover
keys are passed through untouched.  `old_section_tag_Add` is that
retained compound's current `Add` entry, if any. -/
structure AnvilSection where
  Y : Int
  Blocks : Grid3
  Data : Grid3
  BlockLight : Grid3
  SkyLight : Grid3
  old_section_tag_Add : Option Grid3
deriving DecidableEq

/-- The in-memory section compound (keys popped/written by
`AnvilSection._load` and `AnvilSection.buildNBTTag`): `Blocks` is the
uint8 base ID array, the nibble arrays are packed, and `Add` is the
optional packed high-nibble overlay. -/
structure SectionTag where
  Y : Int
  Blocks : Grid3
  Data : Grid3
  BlockLight : Grid3
  SkyLight : Grid3
  Add : Option Grid3
deriving DecidableEq

/-- `AnvilSection._load` (adapter.py lines 126-142): widen the uint8
`Blocks` to uint16, unpack the three nibble arrays, and if an `Add` tag
is present OR it, shifted left by 8, into `Blocks`.  Every known key,
`Add` included, is popped out of the input compound, so the remainder
retained as `old_section_tag` (line 142) holds no `Add` entry. -/
def AnvilSection._load (t : SectionTag) : AnvilSection :=
  let blocks :=
    match t.Add with
    | none => t.Blocks
    | some addPacked => gridZip (fun b v => b ||| v * 256) t.Blocks (unpackNibbleArray addPacked)
  { Y := t.Y, Blocks := blocks, Data := unpackNibbleArray t.Data,
    SkyLight := unpackNibbleArray t.SkyLight, BlockLight := unpackNibbleArray t.BlockLight,
    old_section_tag_Add := none }

/-- `AnvilSection.buildNBTTag` (adapter.py lines 154-175): write into
the retained `old_section_tag` — `Blocks` truncated to uint8, the three
nibble arrays packed, and the `Add` key only when `add = Blocks >> 8`
has any nonzero cell; there is no else-branch deleting an `Add` entry
left in the compound by an earlier save, so when `add.any()` is false
the emitted record carries whatever `Add` the retained compound still
holds.  The `Add` array is packed at uint16 dtype and then cast with
`astype(uint8)`, modelled by the final `% 256` map. -/
def AnvilSection.buildNBTTag (s : AnvilSection) : SectionTag :=
  let add := gridMap (fun v => v / 256) s.Blocks
  { Y := s.Y
    Blocks := gridMap (fun v => v % 256) s.Blocks
    Data := packNibbleArray s.Data
    BlockLight := packNibbleArray s.BlockLight
    SkyLight := packNibbleArray s.SkyLight
    Add := if gridAny (fun v => v != 0) add
           then some (gridMap (fun v => v % 256) (mapRows packRow16 add))
           else s.old_section_tag_Add }

/-- `buildNBTTag` returns the retained compound itself (line 175), so
after a save the section's `old_section_tag` aliases the record just
emitted — in particular its `Add` entry; editing code then mutates the
grids of the same section object in place. -/
def AnvilSection.afterBuild (s : AnvilSection) : AnvilSection :=
  { s with old_section_tag_Add := (AnvilSection.buildNBTTag s).Add }

theorem zipWith_map_self {α β : Type} (h2 : β → β → α) (e d : α → β) :
    ∀ l : List α, (∀ x ∈ l, h2 (e x) (d x) = x) →
      List.zipWith h2 (l.map e) (l.map d) = l
  | [], _ => rfl
  | x :: xs, h => by
    simp only [List.map_cons, List.zipWith_cons_cons]
    rw [h x (by simp), zipWith_map_self h2 e d xs (fun y hy => h y (by simp [hy]))]

theorem gridZip_mapRows_self (h2 : Nat → Nat → Nat) (e d : List Nat → List Nat)
    (g : Grid3) (h : ∀ r ∈ g, ∀ q ∈ r, List.zipWith h2 (e q) (d q) = q) :
    gridZip h2 (mapRows e g) (mapRows d g) = g := by
  unfold gridZip mapRows
  refine zipWith_map_self _ _ _ g (fun r hr => ?_)
  exact zipWith_map_self _ _ _ r (fun q hq => h r hr q hq)

/-- Row-level fact: splitting a 12-bit block row into a uint8 base row
and a packed `Add` row and recombining recovers the row. -/
theorem addRow_roundtrip (q : List Nat) (hv : ∀ v ∈ q, v < 4096)
    (he : q.length % 2 = 0) :
    List.zipWith (fun b v => b ||| v * 256) (q.map (fun v => v % 256))
      (unpackRow ((packRow16 (q.map (fun v => v / 256))).map (fun v => v % 256))) = q := by
  have hnib : ∀ v ∈ q.map (fun v => v / 256), v < 16 := by
    intro v hv2
    simp only [List.mem_map] at hv2
    obtain ⟨w, hw, rfl⟩ := hv2
    have := hv w hw
    omega
  rw [packRow16_eq_packRow _ hnib]
  rw [list_map_self _ _ (fun x hx => Nat.mod_eq_of_lt (packRow_lt _ hnib x hx))]
  rw [unpackRow_packRow _ hnib (by simp [he])]
  refine zipWith_map_self _ _ _ q (fun v hv2 => ?_)
  have hb : v % 256 < 256 := by omega
  rw [lor_highbyte (v % 256) hb (v / 256) (by have := hv v hv2; omega)]
  have := hv v hv2
  omega

theorem gridAny_eq_false (p : Nat → Bool) (g : Grid3) (h : gridAny p g = false) :
    gridForall (fun v => p v = false) g := by
  intro r hr q hq v hv
  cases hp : p v with
  | false => rfl
  | true =>
    have htrue : gridAny p g = true := by
      unfold gridAny
      simp only [List.any_eq_true]
      exact ⟨r, hr, q, hq, v, hv, hp⟩
    rw [h] at htrue
    exact absurd htrue (by simp)

/-- Helper: `_load` recovers the exact `Blocks` grid of `buildNBTTag`
when the retained compound holds no stale `Add` entry. -/
theorem load_build_blocks (s : AnvilSection)
    (hAdd : s.old_section_tag_Add = none)
    (hsh : ∀ r ∈ s.Blocks, ∀ q ∈ r, q.length % 2 = 0)
    (hv : gridForall (· < 4096) s.Blocks) :
    (AnvilSection._load s.buildNBTTag).Blocks = s.Blocks := by
  unfold AnvilSection.buildNBTTag AnvilSection._load
  by_cases hadd : gridAny (fun v => v != 0) (gridMap (fun v => v / 256) s.Blocks) = true
  · simp only [hadd, if_true]
    show gridZip (fun b v => b ||| v * 256) (gridMap (fun v => v % 256) s.Blocks)
        (unpackNibbleArray (gridMap (fun v => v % 256)
          (mapRows packRow16 (gridMap (fun v => v / 256) s.Blocks)))) = s.Blocks
    have hgm : ∀ f : Nat → Nat, ∀ g : Grid3, gridMap f g = mapRows (fun q => q.map f) g := by
      intro f g; rfl
    rw [hgm, hgm, hgm]
    unfold unpackNibbleArray
    rw [mapRows_mapRows, mapRows_mapRows, mapRows_mapRows]
    exact gridZip_mapRows_self _ _ _ s.Blocks (fun r hr q hq =>
      addRow_roundtrip q (fun v hv2 => hv r hr q hq v hv2) (hsh r hr q hq))
  · simp only [hadd, if_false]
    rw [hAdd]
    show gridMap (fun v => v % 256) s.Blocks = s.Blocks
    have hfalse : gridAny (fun v => v != 0) (gridMap (fun v => v / 256) s.Blocks) = false := by
      simpa using hadd
    have hall := gridAny_eq_false _ _ hfalse
    have hgm : gridMap (fun v => v % 256) s.Blocks =
        mapRows (fun q => q.map (fun v => v % 256)) s.Blocks := rfl
    rw [hgm]
    refine mapRows_self _ _ (fun r hr q hq => ?_)
    refine list_map_self _ q (fun v hv2 => ?_)
    have h0 : ((v / 256) != 0) = false := by
      refine hall (r.map (fun w => w.map (fun x => x / 256))) ?_
        (q.map (fun x => x / 256)) ?_ (v / 256) ?_
      · exact List.mem_map_of_mem _ hr
      · exact List.mem_map_of_mem _ hq
      · exact List.mem_map_of_mem _ hv2
    have hz : v / 256 = 0 := by simpa using h0
    omega

/-- A concrete 16x16x16 section whose block IDs exceed 255, freshly
constructed so its retained compound holds no `Add` entry. -/
def sampleSection : AnvilSection :=
  { Y := 4, Blocks := constGrid3 16 16 16 300, Data := constGrid3 16 16 16 7,
    BlockLight := constGrid3 16 16 16 3, SkyLight := constGrid3 16 16 16 11,
    old_section_tag_Add := none }

/-- A reachable stale-Add state: `sampleSection` (all IDs 300) is saved
once, then its blocks are edited down to zero in place; the retained
compound still holds the `Add` entry of the first save. -/
def staleSection : AnvilSection :=
  { AnvilSection.afterBuild sampleSection with Blocks := constGrid3 16 16 16 0 }

/-- Counterexample to C2 as stated: `staleSection` satisfies every
range and shape bound of the claim, yet encode-then-decode does not
reproduce `Blocks` — the stale `Add` entry retained from the earlier
save is re-emitted and `_load` ORs its high nibbles back in. -/
theorem claim_C2_counterexample :
    shape3 16 16 16 staleSection.Blocks ∧ gridForall (· < 4096) staleSection.Blocks ∧
    shape3 16 16 16 staleSection.Data ∧ gridForall (· < 16) staleSection.Data ∧
    shape3 16 16 16 staleSection.BlockLight ∧ gridForall (· < 16) staleSection.BlockLight ∧
    shape3 16 16 16 staleSection.SkyLight ∧ gridForall (· < 16) staleSection.SkyLight ∧
    (AnvilSection._load staleSection.buildNBTTag).Blocks ≠ staleSection.Blocks := by
  decide

/-- C2 (amended): for a section whose retained `old_section_tag` holds
no stale `Add` entry — true of freshly created and freshly loaded
sections, since `_load` pops the key — encoding with `buildNBTTag` and
decoding with `AnvilSection._load` reproduces the `Blocks`, `Data`,
`BlockLight` and `SkyLight` grids exactly (the high 4 bits of each
block ID travel through the optional `Add` field).  Without that
restriction the roundtrip fails: a section re-saved after its IDs drop
below 256 re-emits the stale `Add` and decoding corrupts `Blocks`. -/
theorem claim_C2_amended_section_roundtrip (s : AnvilSection)
    (hAdd : s.old_section_tag_Add = none)
    (hB : shape3 16 16 16 s.Blocks) (hBv : gridForall (· < 4096) s.Blocks)
    (hD : shape3 16 16 16 s.Data) (hDv : gridForall (· < 16) s.Data)
    (hL : shape3 16 16 16 s.BlockLight) (hLv : gridForall (· < 16) s.BlockLight)
    (hS : shape3 16 16 16 s.SkyLight) (hSv : gridForall (· < 16) s.SkyLight) :
    (AnvilSection._load s.buildNBTTag).Blocks = s.Blocks ∧
    (AnvilSection._load s.buildNBTTag).Data = s.Data ∧
    (AnvilSection._load s.buildNBTTag).BlockLight = s.BlockLight ∧
    (AnvilSection._load s.buildNBTTag).SkyLight = s.SkyLight := by
  have heven : ∀ g : Grid3, shape3 16 16 16 g → ∀ r ∈ g, ∀ q ∈ r, q.length % 2 = 0 := by
    intro g hg r hr q hq
    have := (hg.2 r hr).2 q hq
    omega
  refine ⟨load_build_blocks s hAdd (heven _ hB) hBv, ?_, ?_, ?_⟩
  · show unpackNibbleArray (s.buildNBTTag).Data = s.Data
    show unpackNibbleArray (packNibbleArray s.Data) = s.Data
    exact unpack_pack_grid _ (heven _ hD) hDv
  · show unpackNibbleArray (s.buildNBTTag).BlockLight = s.BlockLight
    show unpackNibbleArray (packNibbleArray s.BlockLight) = s.BlockLight
    exact unpack_pack_grid _ (heven _ hL) hLv
  · show unpackNibbleArray (s.buildNBTTag).SkyLight = s.SkyLight
    show unpackNibbleArray (packNibbleArray s.SkyLight) = s.SkyLight
    exact unpack_pack_grid _ (heven _ hS) hSv

/-- Witness for the amended C2 at a fresh section with 12-bit IDs. -/
theorem claim_C2_witness :
    (AnvilSection._load sampleSection.buildNBTTag).Blocks = sampleSection.Blocks ∧
    (AnvilSection._load sampleSection.buildNBTTag).Data = sampleSection.Data ∧
    (AnvilSection._load sampleSection.buildNBTTag).BlockLight = sampleSection.BlockLight ∧
    (AnvilSection._load sampleSection.buildNBTTag).SkyLight = sampleSection.SkyLight :=
  claim_C2_amended_section_roundtrip sampleSection rfl (by decide) (by decide) (by decide)
    (by decide) (by decide) (by decide) (by decide) (by decide)

theorem gridAny_gridMap (p : Nat → Bool) (f : Nat → Nat) (g : Grid3) :
    gridAny p (gridMap f g) = gridAny (fun v => p (f v)) g := by
  unfold gridAny gridMap
  rw [List.any_map]
  congr 1
  funext r
  rw [Function.comp_apply, List.any_map]
  congr 1
  funext q
  rw [Function.comp_apply, List.any_map]
  rfl

theorem gridAny_div_iff (B : Grid3) :
    gridAny (fun v => (v / 256) != 0) B = true ↔
      ∃ r ∈ B, ∃ q ∈ r, ∃ v ∈ q, 256 ≤ v := by
  simp only [gridAny, List.any_eq_true]
  constructor
  · rintro ⟨r, hr, q, hq, v, hv, hb⟩
    refine ⟨r, hr, q, hq, v, hv, ?_⟩
    have hnz : v / 256 ≠ 0 := by simpa using hb
    omega
  · rintro ⟨r, hr, q, hq, v, hv, hb⟩
    refine ⟨r, hr, q, hq, v, hv, ?_⟩
    simp only [bne_iff_ne, ne_eq]
    omega

/-- Counterexample to C3 as stated: every block ID of `staleSection` is
at most 255, yet its encoded record still carries an `Add` key — the
entry written by the earlier save is never deleted from the retained
compound, so the key is not absent. -/
theorem claim_C3_counterexample :
    gridForall (· ≤ 255) staleSection.Blocks ∧ staleSection.buildNBTTag.Add ≠ none := by
  decide

/-- C3 (amended): for a section whose retained `old_section_tag` holds
no stale `Add` entry (freshly created or freshly loaded sections),
`buildNBTTag` emits an `Add` field iff some block ID is at least 256
(when all IDs fit a byte the key is then absent, not zero-filled), and
decoding recovers every 12-bit ID exactly.  Without that restriction a
section re-saved after its IDs drop below 256 still emits the `Add`
key retained from the earlier save. -/
theorem claim_C3_amended_add_field (s : AnvilSection)
    (hAdd : s.old_section_tag_Add = none)
    (hB : shape3 16 16 16 s.Blocks) (hBv : gridForall (· < 4096) s.Blocks) :
    ((s.buildNBTTag.Add ≠ none) ↔ ∃ r ∈ s.Blocks, ∃ q ∈ r, ∃ v ∈ q, 256 ≤ v) ∧
    (AnvilSection._load s.buildNBTTag).Blocks = s.Blocks := by
  constructor
  · show ((if gridAny (fun v => v != 0) (gridMap (fun v => v / 256) s.Blocks)
        then some (gridMap (fun v => v % 256)
          (mapRows packRow16 (gridMap (fun v => v / 256) s.Blocks)))
        else s.old_section_tag_Add) ≠ none) ↔ _
    rw [hAdd, gridAny_gridMap]
    by_cases hc : gridAny (fun v => (v / 256) != 0) s.Blocks = true
    · simp only [hc, if_true]
      simp only [ne_eq, reduceCtorEq, not_false_eq_true, true_iff]
      exact (gridAny_div_iff s.Blocks).mp hc
    · have hc2 : gridAny (fun v => (v / 256) != 0) s.Blocks = false := by simpa using hc
      simp only [hc2, Bool.false_eq_true, if_false, ne_eq, not_true_eq_false, false_iff]
      intro hex
      exact hc ((gridAny_div_iff s.Blocks).mpr hex)
  · refine load_build_blocks s hAdd (fun r hr q hq => ?_) hBv
    have := (hB.2 r hr).2 q hq
    omega

/-- Witness for the amended C3 at the fresh section `sampleSection`. -/
theorem claim_C3_witness :
    ((sampleSection.buildNBTTag.Add ≠ none) ↔
      ∃ r ∈ sampleSection.Blocks, ∃ q ∈ r, ∃ v ∈ q, 256 ≤ v) ∧
    (AnvilSection._load sampleSection.buildNBTTag).Blocks = sampleSection.Blocks :=
  claim_C3_amended_add_field sampleSection rfl (by decide) (by decide)

/-- The elision test of `AnvilChunkData.buildNBTTag` (adapter.py lines
257-259): Blocks entirely zero, BlockLight entirely zero, SkyLight
uniformly 15. -/
def sectionIsTrivial (s : AnvilSection) : Bool :=
  !gridAny (fun v => v != 0) s.Blocks &&
  !gridAny (fun v => v != 0) s.BlockLight &&
  gridAllB (fun v => v == 15) s.SkyLight

/-- The loop of `AnvilChunkData.buildNBTTag` over `_sections` (lines
255-263): skip trivial sections, encode and append the rest.  The
`sanitizeBlocks` call is a no-op in the source (its body is a bare
`return`). -/
def buildSectionList : List (Int × AnvilSection) → List SectionTag
  | [] => []
  | (_, s) :: rest =>
    if sectionIsTrivial s then buildSectionList rest
    else s.buildNBTTag :: buildSectionList rest

/-- The `_sections` store of a chunk.  The chunk-level passthrough data
(Biomes, HeightMap, TerrainPopulated, positions, entity lists) lives in
the black-box tree `rootTag` and is copied unchanged by `buildNBTTag`,
so only the section dictionary is modelled, as an association list in
dictionary iteration order. -/
structure AnvilChunkData where
  sections : List (Int × AnvilSection)
deriving DecidableEq

/-- `AnvilChunkData.buildNBTTag`, restricted to the `Sections` list it
stores into the emitted `Level` compound (adapter.py lines 248-270). -/
def AnvilChunkData.buildNBTTag (c : AnvilChunkData) : List SectionTag :=
  buildSectionList c.sections

/-- `AnvilChunkData._load` over a stored `Sections` list (lines
243-245): `_sections[Y] = AnvilSection(sec)` for each entry, later
entries overwriting earlier ones; the result is the dictionary lookup
function. -/
def loadSectionMap (tags : List SectionTag) : Int → Option AnvilSection :=
  tags.foldl (fun m t => fun y => if y = t.Y then some (AnvilSection._load t) else m y)
    (fun _ => none)

theorem buildSectionList_eq (l : List (Int × AnvilSection)) :
    buildSectionList l =
      (l.filter (fun p => !sectionIsTrivial p.2)).map (fun p => p.2.buildNBTTag) := by
  induction l with
  | nil => rfl
  | cons p rest ih =>
    obtain ⟨y, s⟩ := p
    by_cases hs : sectionIsTrivial s
    · simp [buildSectionList, List.filter_cons, hs, ih]
    · simp [buildSectionList, List.filter_cons, hs, ih]

theorem loadSectionMap_aux (cy : Int) :
    ∀ (tags : List SectionTag) (m : Int → Option AnvilSection), (∀ t ∈ tags, t.Y ≠ cy) →
      (tags.foldl (fun m t => fun y => if y = t.Y then some (AnvilSection._load t) else m y) m) cy
        = m cy
  | [], _, _ => rfl
  | t :: rest, m, h => by
    rw [List.foldl_cons,
      loadSectionMap_aux cy rest _ (fun u hu => h u (by simp [hu]))]
    have hne : cy ≠ t.Y := fun hEq => h t (by simp) hEq.symm
    simp [hne]

theorem buildNBTTag_Y (s : AnvilSection) : (s.buildNBTTag).Y = s.Y := rfl

/-- C4: a chunk's encoded section list omits exactly the held sections
that are trivial (all-zero Blocks, all-zero BlockLight, SkyLight
uniformly 15); every other held section is encoded and appended in
order, and reloading the saved list yields no section at an index all
of whose held sections were trivial. -/
theorem claim_C4_chunk_section_elision (c : AnvilChunkData) :
    c.buildNBTTag =
      (c.sections.filter (fun p => !sectionIsTrivial p.2)).map (fun p => p.2.buildNBTTag) ∧
    ∀ cy : Int, (∀ p ∈ c.sections, p.2.Y = cy → sectionIsTrivial p.2 = true) →
      loadSectionMap c.buildNBTTag cy = none := by
  refine ⟨buildSectionList_eq c.sections, fun cy hcy => ?_⟩
  unfold AnvilChunkData.buildNBTTag
  rw [buildSectionList_eq c.sections]
  unfold loadSectionMap
  refine loadSectionMap_aux cy _ _ (fun t ht => ?_)
  simp only [List.mem_map, List.mem_filter] at ht
  obtain ⟨p, ⟨hp, hpt⟩, rfl⟩ := ht
  rw [buildNBTTag_Y]
  intro hY
  have := hcy p hp hY
  rw [this] at hpt
  simp at hpt

/-- A trivial section at index 3: zero Blocks and BlockLight, SkyLight
uniformly 15 (the nonzero Data grid does not matter for elision). -/
def trivialSampleSection : AnvilSection :=
  { Y := 3, Blocks := constGrid3 16 16 16 0, Data := constGrid3 16 16 16 5,
    BlockLight := constGrid3 16 16 16 0, SkyLight := constGrid3 16 16 16 15,
    old_section_tag_Add := none }

/-- Witness for C4: a chunk holding one trivial and one nontrivial
section keeps exactly the nontrivial one, and index 3 reloads to none. -/
theorem claim_C4_witness :
    AnvilChunkData.buildNBTTag ⟨[(3, trivialSampleSection), (4, sampleSection)]⟩ =
      [sampleSection.buildNBTTag] ∧
    loadSectionMap
      (AnvilChunkData.buildNBTTag ⟨[(3, trivialSampleSection), (4, sampleSection)]⟩) 3 = none := by
  constructor
  · rw [(claim_C4_chunk_section_elision ⟨[(3, trivialSampleSection), (4, sampleSection)]⟩).1]
    rw [List.filter_cons, List.filter_cons]
    norm_num [show sectionIsTrivial trivialSampleSection = true from by decide,
      show sectionIsTrivial sampleSection = false from by decide]
  · exact (claim_C4_chunk_section_elision ⟨[(3, trivialSampleSection), (4, sampleSection)]⟩).2 3
      (by decide)

/-- The exception kinds raised by the adapter layer, kept distinct so
callers can branch on kind (IOError, SessionLockLost(IOError),
ValueError, KeyError, AttributeError, PlayerNotFound, AssertionError). -/
inductive AdapterError where
  | ioError (msg : String)
  | sessionLockLost (msg : String)
  | valueError (msg : String)
  | keyError (key : String)
  | attributeError (attr : String)
  | playerNotFound (uuid : String)
  | assertionFailed (msg : String)
deriving DecidableEq

/-- `struct.pack(">q", t)`: the 8 big-endian bytes of the two's
complement of `t` (adapter.py line 609). -/
def packQ (t : Int) : List Nat :=
  let n := (t % 18446744073709551616).toNat
  [n / 72057594037927936 % 256, n / 281474976710656 % 256,
   n / 1099511627776 % 256, n / 4294967296 % 256,
   n / 16777216 % 256, n / 65536 % 256, n / 256 % 256, n % 256]

/-- `struct.unpack(">q", bytes)`: parse 8 big-endian bytes as a signed
64-bit value; any other length raises struct.error, modelled as none
(adapter.py line 626). -/
def unpackQ (bs : List Nat) : Option Int :=
  match bs with
  | [b0, b1, b2, b3, b4, b5, b6, b7] =>
    let n := ((((((b0 * 256 + b1) * 256 + b2) * 256 + b3) * 256 + b4) * 256 + b5) * 256 + b6)
      * 256 + b7
    some (if n < 9223372036854775808 then (n : Int) else (n : Int) - 18446744073709551616)
  | _ => none

theorem unpackQ_packQ (t : Int) (h1 : -9223372036854775808 ≤ t)
    (h2 : t < 9223372036854775808) : unpackQ (packQ t) = some t := by
  have hm1 : (0 : Int) ≤ t % 18446744073709551616 := Int.emod_nonneg t (by norm_num)
  have hN : (((t % 18446744073709551616).toNat : Int)) = t % 18446744073709551616 :=
    Int.toNat_of_nonneg hm1
  obtain ⟨n, hn⟩ : ∃ n : Nat, (t % 18446744073709551616).toNat = n := ⟨_, rfl⟩
  have hNn : (n : Int) = t % 18446744073709551616 := by rw [← hn]; exact hN
  have hnlt : n < 18446744073709551616 := by omega
  simp only [packQ]
  rw [hn]
  simp only [unpackQ, Option.some.injEq]
  have hfold :
      ((((((n / 72057594037927936 % 256 * 256 + n / 281474976710656 % 256) * 256
        + n / 1099511627776 % 256) * 256 + n / 4294967296 % 256) * 256
        + n / 16777216 % 256) * 256 + n / 65536 % 256) * 256 + n / 256 % 256) * 256 + n % 256
        = n := by
    omega
  rw [hfold]
  split
  · omega
  · omega

/-- The adapter state touched by the session-lock, metadata and player
machinery of `AnvilWorldAdapter`: the read-only flag, the acquisition
timestamp `lockTime`, the current bytes of the session.lock file, the
key set of `metadata.rootTag` (the level.dat `Data` compound) together
with the key set of a nested `rootTag["Data"]` child when one exists,
the file paths present in the selected revision, the revision node
list and the currently selected revision. -/
structure AnvilWorldAdapter where
  readonly : Bool
  lockTime : Int
  lockBytes : List Nat
  rootTagKeys : List String
  rootTagDataKeys : List String
  files : List String
  nodes : List Nat
  selectedRevision : Nat
deriving DecidableEq

/-- World height bounds (class attributes of `AnvilWorldAdapter`). -/
def AnvilWorldAdapter.maxHeight : Int := 256

def AnvilWorldAdapter.minHeight : Int := 0

/-- `acquireSessionLock` (adapter.py lines 599-611): record the current
millisecond timestamp and write it to session.lock (flushed and
fsynced); the wall-clock read is passed in as `now`. -/
def acquireSessionLock (a : AnvilWorldAdapter) (now : Int) : AnvilWorldAdapter :=
  { a with lockTime := now, lockBytes := packQ now }

/-- `checkSessionLock` (adapter.py lines 613-630): a read-only adapter
raises SessionLockLost immediately; otherwise parse the lock file,
treating a failed parse as -1, and raise SessionLockLost unless it
equals the acquired `lockTime`. -/
def checkSessionLock (a : AnvilWorldAdapter) : Except AdapterError Unit :=
  if a.readonly then .error (.sessionLockLost "World is opened read only.")
  else
    let lock := (unpackQ a.lockBytes).getD (-1)
    if lock ≠ a.lockTime then
      .error (.sessionLockLost
        "Session lock lost. This world is being accessed from another location.")
    else .ok ()

/-- `saveChanges` (adapter.py lines 495-507): refuse on a read-only
adapter, re-validate the session lock, and only then instruct the
store (`revisionHistory.writeAllChanges`, a black box) to write
through; `.ok` means the write was instructed, `.error` that it was
refused. -/
def saveChanges (a : AnvilWorldAdapter) : Except AdapterError Unit :=
  if a.readonly then .error (.ioError "World is opened read only.")
  else
    match checkSessionLock a with
    | .error e => .error e
    | .ok _ => .ok ()

/-- C5: after `acquireSessionLock`, `checkSessionLock` succeeds; after
the lock file is externally rewritten with a different timestamp,
`checkSessionLock` raises SessionLockLost and `saveChanges` refuses to
write. -/
theorem claim_C5_session_lock (a : AnvilWorldAdapter) (t tx : Int)
    (hro : a.readonly = false)
    (ht1 : 0 ≤ t) (ht2 : t < 9223372036854775808)
    (hx1 : -9223372036854775808 ≤ tx) (hx2 : tx < 9223372036854775808)
    (hne : tx ≠ t) :
    checkSessionLock (acquireSessionLock a t) = .ok () ∧
    checkSessionLock { acquireSessionLock a t with lockBytes := packQ tx } =
      .error (.sessionLockLost
        "Session lock lost. This world is being accessed from another location.") ∧
    saveChanges { acquireSessionLock a t with lockBytes := packQ tx } =
      .error (.sessionLockLost
        "Session lock lost. This world is being accessed from another location.") := by
  have hparse : unpackQ (packQ t) = some t := unpackQ_packQ t (by omega) ht2
  have hparsex : unpackQ (packQ tx) = some tx := unpackQ_packQ tx hx1 hx2
  have h1 : checkSessionLock (acquireSessionLock a t) = .ok () := by
    unfold checkSessionLock acquireSessionLock
    simp [hro, hparse]
  have h2 : checkSessionLock { acquireSessionLock a t with lockBytes := packQ tx } =
      .error (.sessionLockLost
        "Session lock lost. This world is being accessed from another location.") := by
    unfold checkSessionLock acquireSessionLock
    simp [hro, hparsex, hne]
  refine ⟨h1, h2, ?_⟩
  unfold saveChanges
  rw [h2]
  simp [acquireSessionLock, hro]

/-- Witness for C5 at a concrete adapter and timestamps 1000 and 2000. -/
theorem claim_C5_witness :
    checkSessionLock (acquireSessionLock ⟨false, 0, [], [], [], [], [], 0⟩ 1000) = .ok () ∧
    checkSessionLock
        { acquireSessionLock ⟨false, 0, [], [], [], [], [], 0⟩ 1000 with lockBytes := packQ 2000 } =
      .error (.sessionLockLost
        "Session lock lost. This world is being accessed from another location.") ∧
    saveChanges
        { acquireSessionLock ⟨false, 0, [], [], [], [], [], 0⟩ 1000 with lockBytes := packQ 2000 } =
      .error (.sessionLockLost
        "Session lock lost. This world is being accessed from another location.") :=
  claim_C5_session_lock ⟨false, 0, [], [], [], [], [], 0⟩ 1000 2000 rfl (by norm_num) (by norm_num)
    (by norm_num) (by norm_num) (by norm_num)

/-- C10: when session.lock does not hold exactly 8 bytes, the
struct.error handler of `checkSessionLock` substitutes -1 for the lock
value, so on a writable adapter with a nonnegative acquisition
timestamp the check raises SessionLockLost instead of an unhandled
parse error. -/
theorem claim_C10_short_lock_file (a : AnvilWorldAdapter)
    (hro : a.readonly = false) (hlen : a.lockBytes.length ≠ 8)
    (ht : 0 ≤ a.lockTime) :
    checkSessionLock a =
      .error (.sessionLockLost
        "Session lock lost. This world is being accessed from another location.") := by
  have hparse : unpackQ a.lockBytes = none := by
    unfold unpackQ
    match hbs : a.lockBytes with
    | [] => rfl
    | [_] => rfl
    | [_, _] => rfl
    | [_, _, _] => rfl
    | [_, _, _, _] => rfl
    | [_, _, _, _, _] => rfl
    | [_, _, _, _, _, _] => rfl
    | [_, _, _, _, _, _, _] => rfl
    | [_, _, _, _, _, _, _, _] => exact absurd (by rw [hbs]; rfl) hlen
    | _ :: _ :: _ :: _ :: _ :: _ :: _ :: _ :: _ :: _ => rfl
  unfold checkSessionLock
  simp only [hro, if_false, hparse, Option.getD_none]
  have hne : (-1 : Int) ≠ a.lockTime := by omega
  simp [hne]

/-- Witness for C10: a 3-byte lock file on a writable adapter. -/
theorem claim_C10_witness :
    checkSessionLock ⟨false, 1000, [1, 2, 3], [], [], [], [], 0⟩ =
      .error (.sessionLockLost
        "Session lock lost. This world is being accessed from another location.") :=
  claim_C10_short_lock_file ⟨false, 1000, [1, 2, 3], [], [], [], [], 0⟩ rfl (by norm_num)
    (by norm_num)

/-- The delta returned by `selectRevision`, identified by the previous
and the newly selected revision node. -/
structure RevisionChanges where
  oldRevision : Nat
  newRevision : Nat
deriving DecidableEq

/-- `AnvilWorldAdapter.selectRevision` (adapter.py lines 567-584): an
index that is negative or at least `len(revisionHistory.nodes)`
returns None and does nothing; otherwise the black-box store's
`getRevision`/`getRevisionChanges` (modelled from the spec as looking
up the indexed node and computing the delta between the previous and
the new selection) produce the changes and the selection moves. -/
def selectRevision (a : AnvilWorldAdapter) (index : Int) :
    Option RevisionChanges × AnvilWorldAdapter :=
  if index < 0 ∨ (a.nodes.length : Int) ≤ index then (none, a)
  else
    let newRevision := a.nodes.getD index.toNat 0
    (some ⟨a.selectedRevision, newRevision⟩, { a with selectedRevision := newRevision })

/-- C9: `selectRevision` with a negative index or one at least the
revision count returns None and leaves the adapter, in particular the
currently selected revision, unchanged. -/
theorem claim_C9_selectRevision_out_of_range (a : AnvilWorldAdapter) (index : Int)
    (h : index < 0 ∨ (a.nodes.length : Int) ≤ index) :
    selectRevision a index = (none, a) := by
  unfold selectRevision
  rw [if_pos h]

/-- Witness for C9: index 5 on an adapter with two revisions. -/
theorem claim_C9_witness :
    selectRevision ⟨false, 0, [], [], [], [], [7, 8], 1⟩ 5 = (none, ⟨false, 0, [], [], [], [], [7, 8], 1⟩) :=
  claim_C9_selectRevision_out_of_range ⟨false, 0, [], [], [], [], [7, 8], 1⟩ 5 (by norm_num)

/-- Blank section built by `AnvilSection._create` (adapter.py lines
144-152): zero-filled 16x16x16 grids, Y initially 0, and a fresh empty
compound as the retained `old_section_tag` (line 152). -/
def AnvilSection._create : AnvilSection :=
  { Y := 0, Blocks := constGrid3 16 16 16 0, Data := constGrid3 16 16 16 0,
    SkyLight := constGrid3 16 16 16 0, BlockLight := constGrid3 16 16 16 0,
    old_section_tag_Add := none }

/-- `AnvilChunkData.getSection` (adapter.py lines 275-299): the bounds
test is `(cy << 4) > adapter.maxHeight or cy < 0` (note the strict
comparison); out of bounds either raises ValueError (create) or
returns None; in bounds it returns the stored section, creates and
registers a blank one, or returns None. -/
def AnvilChunkData.getSection (c : AnvilChunkData) (cy : Int) (create : Bool) :
    Except AdapterError (Option AnvilSection × AnvilChunkData) :=
  if cy * 16 > AnvilWorldAdapter.maxHeight ∨ cy < 0 then
    if create then .error (.valueError "Requested section exceeds world height")
    else .ok (none, c)
  else
    match c.sections.lookup cy with
    | some s => .ok (some s, c)
    | none =>
      if create then
        let s := { AnvilSection._create with Y := cy }
        .ok (some s, { c with sections := c.sections ++ [(cy, s)] })
      else .ok (none, c)

/-- Counterexample to C6 as stated: the slab of section index 16 starts
at 256, outside [worldMinHeight, worldMaxHeight) = [0, 256), yet
`getSection(16, create=True)` does not raise — the strict `>` in the
bounds test accepts it and a blank section is created and stored. -/
theorem claim_C6_counterexample :
    AnvilChunkData.getSection ⟨[]⟩ 16 true ≠
      .error (.valueError "Requested section exceeds world height") := by
  unfold AnvilChunkData.getSection
  norm_num [AnvilWorldAdapter.maxHeight, List.lookup]
  exact fun h => Except.noConfusion h

/-- C6 (amended): `getSection(cy, create=True)` raises ValueError
exactly for cy < 0 or cy * 16 > worldMaxHeight (strictly greater, so
index 16 is accepted), and for those cy `getSection(cy, create=False)`
returns None without failing. -/
theorem claim_C6_amended_getSection_bounds (c : AnvilChunkData) (cy : Int)
    (h : cy < 0 ∨ 256 < cy * 16) :
    AnvilChunkData.getSection c cy true =
      .error (.valueError "Requested section exceeds world height") ∧
    AnvilChunkData.getSection c cy false = .ok (none, c) := by
  have hcond : cy * 16 > AnvilWorldAdapter.maxHeight ∨ cy < 0 := by
    unfold AnvilWorldAdapter.maxHeight
    omega
  unfold AnvilChunkData.getSection
  rw [if_pos hcond, if_pos hcond]
  exact ⟨rfl, rfl⟩

/-- Witness for the amended C6 at index 17 on the empty chunk. -/
theorem claim_C6_witness :
    AnvilChunkData.getSection ⟨[]⟩ 17 true =
      .error (.valueError "Requested section exceeds world height") ∧
    AnvilChunkData.getSection ⟨[]⟩ 17 false = .ok (none, (⟨[]⟩ : AnvilChunkData)) :=
  claim_C6_amended_getSection_bounds ⟨[]⟩ 17 (by norm_num)

/-- The typed fields of the level.dat `Data` compound that the adapter
reads and writes (spawn coordinates, version, timestamps, seed, size,
world time, level name). -/
structure MetadataTag where
  spawnX : Int
  spawnY : Int
  spawnZ : Int
  version : Int
  lastPlayed : Int
  randomSeed : Int
  sizeOnDisk : Int
  time : Int
  levelName : String
deriving DecidableEq

/-- `AnvilWorldMetadata`: the typed overlay plus its dirty flag; the
initializer always starts with `dirty = False` (adapter.py line 338). -/
structure AnvilWorldMetadata where
  metadataTag : MetadataTag
  dirty : Bool
deriving DecidableEq

/-- `AnvilWorldAdapter._createMetadataTag` (adapter.py lines 456-483):
synthesize defaults — spawn (0, 2, 0), the Anvil version, the current
timestamp, a random seed, SizeOnDisk 0, Time 1 and the world folder
name as level name.  Modelled from the spec: the typed attribute
setters used here are `nbtattr.NBTAttr` descriptors from module
mceditlib.nbtattr, which is not included under src/; per the spec they
assign the wire field and mark the metadata dirty so the synthesized
defaults are persisted on the next metadata flush. -/
def createMetadataTag (folderName : String) (now seed : Int) : AnvilWorldMetadata :=
  { metadataTag :=
      { spawnX := 0, spawnY := 2, spawnZ := 0, version := 19133,
        lastPlayed := now, randomSeed := seed, sizeOnDisk := 0, time := 1,
        levelName := folderName },
    dirty := true }

/-- The metadata-loading chain of `AnvilWorldAdapter.__init__`
(adapter.py lines 433-448): try level.dat; on an I/O or decompression
failure load level.dat_old and immediately call `saveChanges()`; if
that whole inner block raises anywhere (backup unreadable, read-only
adapter, lost session lock) fall back to `_createMetadataTag`.  A
successfully loaded tag is wrapped with `dirty = False`. -/
def loadWorldMetadata (a : AnvilWorldAdapter) (primary backup : Option MetadataTag)
    (folderName : String) (now seed : Int) : AnvilWorldMetadata :=
  match primary with
  | some t => ⟨t, false⟩
  | none =>
    match backup with
    | none => createMetadataTag folderName now seed
    | some t =>
      match saveChanges a with
      | .ok _ => ⟨t, false⟩
      | .error _ => createMetadataTag folderName now seed

/-- The version assertion closing `AnvilWorldAdapter.__init__` (line
449): any version other than VERSION_ANVIL = 19133 is fatal. -/
def openWorldMetadata (a : AnvilWorldAdapter) (primary backup : Option MetadataTag)
    (folderName : String) (now seed : Int) : Except AdapterError AnvilWorldMetadata :=
  let m := loadWorldMetadata a primary backup folderName now seed
  if m.metadataTag.version = 19133 then .ok m
  else .error (.assertionFailed "Pre-Anvil world formats are not supported (for now)")

/-- A writable adapter over a standard freshly created world: lock
acquired at 1000, metadata holding the default key set (note: no
nested "Data" key inside the Data compound), no player files, one
revision node. -/
def freshAdapter : AnvilWorldAdapter :=
  { readonly := false, lockTime := 1000, lockBytes := packQ 1000,
    rootTagKeys := ["SpawnX", "SpawnY", "SpawnZ", "version", "LastPlayed",
                    "RandomSeed", "SizeOnDisk", "Time", "LevelName"],
    rootTagDataKeys := [], files := [], nodes := [0], selectedRevision := 0 }

/-- A valid backup level.dat (Anvil version). -/
def backupTag : MetadataTag :=
  { spawnX := 8, spawnY := 64, spawnZ := -3, version := 19133, lastPlayed := 77,
    randomSeed := 42, sizeOnDisk := 0, time := 900, levelName := "OldWorld" }

/-- Counterexample to C7 as stated: opening with an unreadable primary
level.dat and a valid backup leaves the restored metadata with
`dirty = False` — the code calls `saveChanges()` instead of marking
the metadata dirty, so the claim that it "is marked dirty" fails. -/
theorem claim_C7_counterexample :
    ¬ ((loadWorldMetadata freshAdapter none (some backupTag) "world" 5 6).dirty = true) := by
  decide

/-- C7 (amended): opening a world whose primary level.dat is unreadable
but whose backup is valid succeeds and the resulting metadata holds the
backup's values, but the dirty flag stays False: instead of marking the
metadata dirty for re-persistence, the code immediately calls
`saveChanges` (which re-validates the session lock and write-throughs
the revision store, not the metadata blob). -/
theorem claim_C7_amended_backup_restore (a : AnvilWorldAdapter) (t : MetadataTag)
    (folderName : String) (now seed : Int)
    (hro : a.readonly = false)
    (hlock : (unpackQ a.lockBytes).getD (-1) = a.lockTime)
    (hv : t.version = 19133) :
    openWorldMetadata a none (some t) folderName now seed = .ok ⟨t, false⟩ := by
  have hchk : checkSessionLock a = .ok () := by
    unfold checkSessionLock
    simp [hro, hlock]
  have hsave : saveChanges a = .ok () := by
    unfold saveChanges
    rw [hchk]
    simp [hro]
  unfold openWorldMetadata loadWorldMetadata
  rw [hsave]
  simp [hv]

/-- Witness for the amended C7 at the concrete adapter and backup. -/
theorem claim_C7_witness :
    openWorldMetadata freshAdapter none (some backupTag) "world" 5 6 =
      .ok ⟨backupTag, false⟩ :=
  claim_C7_amended_backup_restore freshAdapter backupTag "world" 5 6 rfl (by decide) rfl

/-- `AnvilWorldAdapter.createPlayer` (adapter.py lines 811-844),
evaluated step by step against the state it touches:

- a read-only adapter raises IOError (line 822);
- for the empty identifier, line 827 evaluates
  `self.metadata.rootTag["Data"]` — but `metadata.rootTag` already IS
  the level.dat `Data` compound (line 337), so unless that compound
  happens to contain a nested "Data" child the tag library raises
  KeyError (the same missing-key behavior the adapter anticipates from
  the library in `readChunk`, line 721); when the child does exist the
  code checks and stores the "Player" entry inside it;
- for a non-empty identifier, an existing player file raises
  ValueError (line 833);
- line 837 then constructs `AnvilPlayerRef(playerTag, self)` although
  `AnvilPlayerRef.__init__(self, adapter, playerUUID)` (line 856)
  expects the adapter first, so the tag is bound as the adapter and
  `adapter.getPlayerTag(...)` (line 859) is an attribute lookup on a
  plain compound tag.  Modelled from the spec: the tag library
  (mceditlib.nbt, not included under src/) is a plain tree format with
  no `getPlayerTag` member, and the spec's design notes flag this
  inverted argument order as a possible defect to be preserved, so the
  call fails with AttributeError.  The remaining source lines
  (SetNBTDefaults, the `playerUUID != "Player"` write guard,
  checkSessionLock, writeFile, getPlayer) are unreachable. -/
def createPlayer (a : AnvilWorldAdapter) (uuid : String) :
    Except AdapterError AnvilWorldAdapter :=
  if a.readonly then .error (.ioError "World is opened read only.")
  else
    let path := "playerdata/" ++ uuid ++ ".dat"
    let step1 : Except AdapterError AnvilWorldAdapter :=
      if uuid = "" then
        if "Data" ∈ a.rootTagKeys then
          if "Player" ∈ a.rootTagDataKeys then
            .error (.ioError "Single-player player already exists.")
          else .ok { a with rootTagDataKeys := a.rootTagDataKeys ++ ["Player"] }
        else .error (.keyError "Data")
      else
        if path ∈ a.files then
          .error (.valueError "Cannot create player %s: already exists.")
        else .ok a
    match step1 with
    | .error e => .error e
    | .ok _ => .error (.attributeError "getPlayerTag")

/-- C8 is a code bug: on a standard writable world, `createPlayer("")`
raises KeyError("Data") at the double index
`self.metadata.rootTag["Data"]` instead of storing the single-player
record in the metadata blob, and `createPlayer` with a normal
multiplayer identifier fails in the swapped-argument
`AnvilPlayerRef(playerTag, self)` construction before the player file
is ever written, so neither the deferred single-player persistence nor
the immediate multiplayer write described by the claim happens. -/
theorem claim_C8_createPlayer_defect :
    createPlayer freshAdapter "" = .error (.keyError "Data") ∧
    createPlayer freshAdapter "f2b5" = .error (.attributeError "getPlayerTag") := by
  constructor
  · rfl
  · rfl
